import Mathlib

/-!
Verification development for the clinical-code-finder query-resolution
pipeline.  The Python source (src/agent/state.py, src/agent/nodes.py,
src/agent/graph.py, src/llm/intent.py, src/api/clinical_tables.py) is
shallowly embedded below: pure functions become Lean functions, the remote
HTTP search and the completion service become explicit parameters or modelled
outcome values, Python exceptions become `Except`, Python dicts (which keep
insertion order) become association lists, and Python float arithmetic on
small decimal values is modelled with `ℚ`.
-/

/-! ## String helpers (ASCII lower/upper, substring, strip)

Python's `str.lower`, `str.upper`, `word in s`, `str.strip` restricted to
what the source exercises (ASCII queries and keyword lists). -/

def lowerChar (c : Char) : Char :=
  if 65 ≤ c.toNat ∧ c.toNat ≤ 90 then Char.ofNat (c.toNat + 32) else c

def upperChar (c : Char) : Char :=
  if 97 ≤ c.toNat ∧ c.toNat ≤ 122 then Char.ofNat (c.toNat - 32) else c

def strLower (s : String) : String := ⟨s.data.map lowerChar⟩

def strUpper (s : String) : String := ⟨s.data.map upperChar⟩

/-- `isPre pat s` : does the char list `s` start with `pat`. -/
def isPre : List Char → List Char → Bool
  | [], _ => true
  | _ :: _, [] => false
  | a :: as, b :: bs => a == b && isPre as bs

def containsSubAux : List Char → List Char → Bool
  | [], pat => pat.isEmpty
  | c :: rest, pat => isPre pat (c :: rest) || containsSubAux rest pat

/-- Python `pat in s` on strings: `pat` occurs as a contiguous substring. -/
def containsSub (s pat : String) : Bool :=
  containsSubAux s.data pat.data

/-- Association-list lookup (Python `dict.get(key)` with `None` default). -/
def assocGet {α : Type} : List (String × α) → String → Option α
  | [], _ => none
  | (k, v) :: rest, key => if k = key then some v else assocGet rest key

def isSpaceChar (c : Char) : Bool :=
  c == ' ' || c == '\t' || c == '\n' || c == '\r' ||
  c == Char.ofNat 11 || c == Char.ofNat 12

/-- Python `str.strip()` (whitespace at both ends). -/
def stripStr (s : String) : String :=
  ⟨((s.data.dropWhile isSpaceChar).reverse.dropWhile isSpaceChar).reverse⟩

/-! ## Data model — src/agent/state.py -/

/-- `class CodingSystem(Enum)` of src/agent/state.py.  Note the member set:
there is no `RXTERMS` member (src/llm/intent.py line 110 nevertheless
references `CodingSystem.RXTERMS`). -/
inductive CodingSystem
  | ICD10
  | LOINC
  | RXNORM
  | HCPCS
  | UCUM
  | HPO
deriving DecidableEq

/-- The `.value` of each enum member, from src/agent/state.py. -/
def CodingSystem.value : CodingSystem → String
  | .ICD10 => "icd10cm"
  | .LOINC => "loinc"
  | .RXNORM => "rxnorm"
  | .HCPCS => "hcpcs"
  | .UCUM => "ucum"
  | .HPO => "hpo"

/-- Python `CodingSystem(v)`: look a member up by value; raises `ValueError`
(here: `none`) when no member has value `v`. -/
def CodingSystem.ofValue (v : String) : Option CodingSystem :=
  if v = "icd10cm" then some .ICD10
  else if v = "loinc" then some .LOINC
  else if v = "rxnorm" then some .RXNORM
  else if v = "hcpcs" then some .HCPCS
  else if v = "ucum" then some .UCUM
  else if v = "hpo" then some .HPO
  else none

/-- `@dataclass SearchIntent` of src/agent/state.py. -/
structure SearchIntent where
  primary_system : CodingSystem
  secondary_systems : List CodingSystem
  refined_query : String
  concept_type : String
deriving DecidableEq

/-! ## Intent classifier — src/llm/intent.py -/

/-- The three keyword tests of `_keyword_fallback`
(`any(word in query_lower for word in [...])`). -/
def hasDiagnosisKeyword (query_lower : String) : Bool :=
  ["diabetes", "hypertension", "infection"].any
    (fun word => containsSub query_lower word)

def hasLabKeyword (query_lower : String) : Bool :=
  ["test", "lab", "glucose", "hemoglobin"].any
    (fun word => containsSub query_lower word)

def hasDrugKeyword (query_lower : String) : Bool :=
  ["mg", "tablet", "medication", "drug"].any
    (fun word => containsSub query_lower word)

/-- `IntentClassifier._keyword_fallback`.  The drug branch constructs
`SearchIntent(primary_system=CodingSystem.RXTERMS, ...)`; `CodingSystem`
has no member `RXTERMS`, so evaluating that attribute raises
`AttributeError`, modelled as `.error`.  The other branches return
normally. -/
def keyword_fallback (query : String) : Except String SearchIntent :=
  let query_lower := strLower query
  if hasDiagnosisKeyword query_lower then
    .ok { primary_system := .ICD10, secondary_systems := [],
          refined_query := query, concept_type := "diagnosis" }
  else if hasLabKeyword query_lower then
    .ok { primary_system := .LOINC, secondary_systems := [],
          refined_query := query, concept_type := "lab" }
  else if hasDrugKeyword query_lower then
    .error "AttributeError: type object CodingSystem has no attribute RXTERMS"
  else
    .ok { primary_system := .ICD10, secondary_systems := [.LOINC],
          refined_query := query, concept_type := "unknown" }

/-- `IntentClassifier.classify` when the completion-service call itself
raises: the `except` handler at src/llm/intent.py lines 86-88 runs
`return self._keyword_fallback(query)`.  That call sits outside the `try`
block, so an exception it raises propagates out of `classify`. -/
def classifyOnServiceFailure (query : String) : Except String SearchIntent :=
  keyword_fallback query

/-- The parsed JSON dictionary extracted from the completion text, with the
fields `classify` reads (`data["primary_system"]`,
`data.get("secondary_systems", [])`, `data.get("refined_query", query)`,
`data.get("concept_type", "unknown")`). -/
structure IntentData where
  primary_system : String
  secondary_systems : List String
  refined_query : Option String
  concept_type : Option String
deriving Repr

/-- The list comprehension `[CodingSystem(s) for s in data.get("secondary_systems", [])]`:
the whole conversion raises (returns `none`) as soon as one element is not a
recognized enum value. -/
def convertSystems : List String → Option (List CodingSystem)
  | [] => some []
  | s :: rest =>
    match CodingSystem.ofValue s with
    | none => none
    | some c => (convertSystems rest).map (fun cs => c :: cs)

/-- `IntentClassifier.classify` on a successfully parsed JSON object `data`:
builds the `SearchIntent`; a `ValueError` from `CodingSystem(...)` (an
unrecognized vocabulary name) is caught by the surrounding `except`, which
falls back to `_keyword_fallback(query)`. -/
def classifyFromData (query : String) (data : IntentData) :
    Except String SearchIntent :=
  match CodingSystem.ofValue data.primary_system,
        convertSystems data.secondary_systems with
  | some p, some secs =>
      .ok { primary_system := p, secondary_systems := secs,
            refined_query := data.refined_query.getD query,
            concept_type := data.concept_type.getD "unknown" }
  | _, _ => keyword_fallback query

instance {ε α : Type} [DecidableEq ε] [DecidableEq α] :
    DecidableEq (Except ε α) := fun a b =>
  match a, b with
  | .ok x, .ok y =>
      if h : x = y then .isTrue (by rw [h]) else .isFalse (by simp [h])
  | .error x, .error y =>
      if h : x = y then .isTrue (by rw [h]) else .isFalse (by simp [h])
  | .ok _, .error _ => .isFalse (by simp)
  | .error _, .ok _ => .isFalse (by simp)

/-! ## Vocabulary search adapter — src/api/clinical_tables.py -/

/-- JSON values as far as the adapter inspects them: the response envelope
and the row fields.  (Objects/numbers are not inspected by the adapter
beyond truthiness and list-shape tests, so strings, arrays and null
suffice to model every path of `ClinicalTablesAPI.search`.) -/
inductive JVal
  | jstr (s : String)
  | jlist (xs : List JVal)
  | jnull

/-- Boolean equality on `JVal`. -/
def JVal.beq : JVal → JVal → Bool
  | .jstr a, .jstr b => a == b
  | .jnull, .jnull => true
  | .jlist [], .jlist [] => true
  | .jlist (x :: xs), .jlist (y :: ys) =>
      JVal.beq x y && JVal.beq (.jlist xs) (.jlist ys)
  | _, _ => false

theorem JVal.beq_iff : ∀ a b : JVal, JVal.beq a b = true ↔ a = b
  | .jstr a, .jstr b => by simp [JVal.beq]
  | .jstr _, .jlist _ => by simp [JVal.beq]
  | .jstr _, .jnull => by simp [JVal.beq]
  | .jnull, .jstr _ => by simp [JVal.beq]
  | .jnull, .jlist _ => by simp [JVal.beq]
  | .jnull, .jnull => by simp [JVal.beq]
  | .jlist [], .jstr _ => by simp [JVal.beq]
  | .jlist [], .jnull => by simp [JVal.beq]
  | .jlist (_ :: _), .jstr _ => by simp [JVal.beq]
  | .jlist (_ :: _), .jnull => by simp [JVal.beq]
  | .jlist [], .jlist [] => by simp [JVal.beq]
  | .jlist [], .jlist (_ :: _) => by simp [JVal.beq]
  | .jlist (_ :: _), .jlist [] => by simp [JVal.beq]
  | .jlist (x :: xs), .jlist (y :: ys) => by
      have h1 := JVal.beq_iff x y
      have h2 := JVal.beq_iff (.jlist xs) (.jlist ys)
      simp only [JVal.beq, Bool.and_eq_true, h1, h2, JVal.jlist.injEq,
        List.cons.injEq]

instance : DecidableEq JVal := fun a b =>
  decidable_of_iff (JVal.beq a b = true) (JVal.beq_iff a b)

/-- Python truthiness of the modelled JSON values. -/
def JVal.truthy : JVal → Bool
  | .jstr s => !s.isEmpty
  | .jlist xs => !xs.isEmpty
  | .jnull => false

/-- Python `f"{x}"` rendering of a field value.  (For nested lists Python
would use element reprs; no list-valued code field occurs in the claims, so
elements are rendered with the same function.) -/
def JVal.fmt : JVal → String
  | .jstr s => s
  | .jnull => "None"
  | .jlist [] => "[]"
  | .jlist [x] => "[" ++ JVal.fmt x ++ "]"
  | .jlist (x :: y :: rest) =>
      let tail := JVal.fmt (.jlist (y :: rest))
      "[" ++ JVal.fmt x ++ ", " ++ tail.drop 1

/-- One normalized result dict `{"code": ..., "display": ..., "system": ...}`
appended by `ClinicalTablesAPI.search`. -/
structure CodeResult where
  code : JVal
  display : String
  system : String
deriving DecidableEq

namespace ClinicalTablesAPI

/-- One entry of `ClinicalTablesAPI.API_CONFIG`. -/
structure ApiConfig where
  search_fields : String
  display_fields : String
  result_index : Nat
  code_field : Nat
  display_field : Nat
deriving DecidableEq

/-- `ClinicalTablesAPI.API_CONFIG`, verbatim from the source. -/
def API_CONFIG : List (String × ApiConfig) :=
  [("icd10cm",
    { search_fields := "code,name", display_fields := "code,name",
      result_index := 3, code_field := 0, display_field := 1 }),
   ("loinc_items",
    { search_fields := "text,COMPONENT,CONSUMER_NAME,RELATEDNAMES2,METHOD_TYP,SHORTNAME,LONG_COMMON_NAME,LOINC_NUM",
      display_fields := "LOINC_NUM,LONG_COMMON_NAME",
      result_index := 3, code_field := 0, display_field := 1 }),
   ("rxterms",
    { search_fields := "DISPLAY_NAME,STRENGTHS_AND_FORMS,DISPLAY_NAME_SYNONYM",
      display_fields := "RXCUIS,DISPLAY_NAME",
      result_index := 3, code_field := 0, display_field := 1 }),
   ("hcpcs",
    { search_fields := "code,short_desc,long_desc", display_fields := "code,display",
      result_index := 3, code_field := 0, display_field := 1 }),
   ("ucum",
    { search_fields := "cs_code,name,synonyms,cs_code_tokens", display_fields := "cs_code,name",
      result_index := 3, code_field := 0, display_field := 1 }),
   ("hpo",
    { search_fields := "id,name,synonym.term", display_fields := "id,name",
      result_index := 3, code_field := 0, display_field := 1 })]

/-- `self.API_CONFIG.get(endpoint, self.API_CONFIG["icd10cm"])`
(src/api/clinical_tables.py line 89). -/
def effectiveConfig (endpoint : String) : ApiConfig :=
  (assocGet API_CONFIG endpoint).getD
    { search_fields := "code,name", display_fields := "code,name",
      result_index := 3, code_field := 0, display_field := 1 }

/-- The query parameters of the outgoing GET request
(src/api/clinical_tables.py lines 91-96). -/
structure RequestParams where
  sf : String
  df : String
  maxList : Nat
  terms : String
deriving DecidableEq

def buildParams (endpoint query : String) (limit : Nat) : RequestParams :=
  let config := effectiveConfig endpoint
  { sf := config.search_fields, df := config.display_fields,
    maxList := limit, terms := query }

/-- Outcome of the HTTP round trip, as the adapter's `try` block sees it:
`ok data` is a 2xx response whose body parsed as JSON; `httpError` is a
non-2xx status (`raise_for_status` raises); `malformed` is any other
transport/parse exception. -/
inductive HttpOutcome
  | ok (data : JVal)
  | httpError
  | malformed

/-- The shape guard of lines 109-110:
`len(data) > result_index and isinstance(data[result_index], list)`.
Only a JSON array with an array sitting at `result_index` yields rows.
(When `data` is a string, indexing yields a character, which is not a
list; when `data` is `null`, `len` raises, which the `except` turns into
zero results — both are `none` here.) -/
def getRows (data : JVal) (idx : Nat) : Option (List JVal) :=
  match data with
  | .jlist xs =>
    match xs.get? idx with
    | some (.jlist rows) => some rows
    | _ => none
  | _ => none

/-- Lines 113-125 for one row: rows that are not lists of at least two
fields are skipped (`.ok none`); a truthy non-string display has no
`.strip` attribute, so the iteration raises (`.error`), which the outer
`except` turns into an empty overall result. -/
def parseRow (endpoint : String) (config : ApiConfig) (row : JVal) :
    Except Unit (Option CodeResult) :=
  match row with
  | .jlist fields =>
    if fields.length ≥ 2 then
      match fields.get? config.code_field, fields.get? config.display_field with
      | some code, some display =>
        if display.truthy then
          match display with
          | .jstr s =>
            if stripStr s = "" then
              .ok (some { code := code,
                          display := strUpper endpoint ++ ": " ++ code.fmt,
                          system := endpoint })
            else
              .ok (some { code := code, display := s, system := endpoint })
          | _ => .error ()
        else
          .ok (some { code := code,
                      display := strUpper endpoint ++ ": " ++ code.fmt,
                      system := endpoint })
      | _, _ => .error ()
    else
      .ok none
  | _ => .ok none

/-- The row loop of lines 111-125: an exception at any row aborts the whole
search. -/
def parseRows (endpoint : String) (config : ApiConfig) :
    List JVal → Except Unit (List CodeResult)
  | [] => .ok []
  | row :: rest =>
    match parseRow endpoint config row with
    | .error e => .error e
    | .ok none => parseRows endpoint config rest
    | .ok (some r) => (parseRows endpoint config rest).map (fun rs => r :: rs)

/-- `ClinicalTablesAPI.search(endpoint, query, limit)` as a function of the
HTTP outcome.  `limit` reaches the remote service only through the
`maxList` request parameter (`buildParams`); the response parsing never
truncates locally.  Every exception path returns `[]`. -/
def search (endpoint query : String) (limit : Nat) (resp : HttpOutcome) :
    List CodeResult :=
  let config := effectiveConfig endpoint
  let _params := buildParams endpoint query limit
  match resp with
  | .httpError => []
  | .malformed => []
  | .ok data =>
    match getRows data config.result_index with
    | none => []
    | some rows =>
      match parseRows endpoint config rows with
      | .error _ => []
      | .ok results => results

end ClinicalTablesAPI

/-! ## Pipeline state and nodes — src/agent/state.py, src/agent/nodes.py -/

/-- One entry of the conversation history list maintained by `run_agent`
and read by `IntentClassifier.classify`. -/
structure HistoryEntry where
  query : String
  intent : Option SearchIntent
  results_summary : String
deriving DecidableEq

/-- One audit dict appended to `state["api_calls_made"]`. -/
structure ApiCallRecord where
  system : String
  query : String
  result_count : Nat
deriving DecidableEq

/-- `AgentState` of src/agent/state.py.  Python dicts keep insertion order,
so the per-vocabulary maps are association lists keyed by the vocabulary
value string. -/
structure AgentState where
  user_query : String
  conversation_history : List HistoryEntry
  intent : SearchIntent
  api_calls_made : List ApiCallRecord
  raw_results : List (String × List CodeResult)
  filtered_results : List (String × List CodeResult)
  confidence_scores : List (String × ℚ)
  summary : String

/-- Python `d[key] = v` on an insertion-ordered dict: overwrite in place if
the key exists, else append at the end. -/
def assocSet {α : Type} : List (String × α) → String → α → List (String × α)
  | [], k, v => [(k, v)]
  | (k2, v2) :: rest, k, v =>
    if k2 = k then (k, v) :: rest else (k2, v2) :: assocSet rest k v

def assocKeys {α : Type} (l : List (String × α)) : List String :=
  l.map (fun p => p.1)

/-- `endpoint_map` of `_search_system` (src/agent/nodes.py lines 158-165).
Note it differs from `CodingSystem.value` for LOINC (`loinc_items`) and
RXNORM (`rxterms`). -/
def endpoint_map (s : CodingSystem) : Option String :=
  match s with
  | .ICD10 => some "icd10cm"
  | .LOINC => some "loinc_items"
  | .RXNORM => some "rxterms"
  | .HCPCS => some "hcpcs"
  | .UCUM => some "ucum"
  | .HPO => some "hpo"

/-- `_search_system(system, query, limit)` (src/agent/nodes.py lines
156-183), with the remote API modelled by `fetch : endpoint → query →
limit → results` (the adapter itself never raises; `_search_system`
additionally turns any exception into `[]`, so a total `fetch` captures
every outcome). -/
def search_system (fetch : String → String → Nat → List CodeResult)
    (system : CodingSystem) (query : String) (limit : Nat) : List CodeResult :=
  match endpoint_map system with
  | none => []
  | some endpoint => fetch endpoint query limit

/-- `search_primary_node` (src/agent/nodes.py lines 51-70): one adapter call
for the primary system with limit 10; the audit record is always appended
and the raw-results key is always written, even for an empty result list. -/
def search_primary_node (fetch : String → String → Nat → List CodeResult)
    (state : AgentState) :
    List ApiCallRecord × List (String × List CodeResult) :=
  let intent := state.intent
  let results := search_system fetch intent.primary_system intent.refined_query 10
  (state.api_calls_made ++
     [{ system := intent.primary_system.value, query := intent.refined_query,
        result_count := results.length }],
   assocSet state.raw_results intent.primary_system.value results)

/-- The `for system in intent.secondary_systems[:3]` loop body of
`search_secondary_node`: limit-5 adapter call, unconditional audit record,
raw-results write only when the result list is non-empty. -/
def secondary_loop (fetch : String → String → Nat → List CodeResult)
    (query : String) :
    List CodingSystem → List ApiCallRecord × List (String × List CodeResult) →
    List ApiCallRecord × List (String × List CodeResult)
  | [], acc => acc
  | system :: rest, (api_calls, raw_results) =>
    let results := search_system fetch system query 5
    let api_calls := api_calls ++
      [{ system := system.value, query := query,
         result_count := results.length }]
    let raw_results :=
      if results.isEmpty then raw_results
      else assocSet raw_results system.value results
    secondary_loop fetch query rest (api_calls, raw_results)

/-- `search_secondary_node` (src/agent/nodes.py lines 73-94). -/
def search_secondary_node (fetch : String → String → Nat → List CodeResult)
    (state : AgentState) :
    List ApiCallRecord × List (String × List CodeResult) :=
  secondary_loop fetch state.intent.refined_query
    (state.intent.secondary_systems.take 3)
    (state.api_calls_made, state.raw_results)

/-- The loop of `aggregate_results_node` (src/agent/nodes.py lines 130-135)
over the insertion-ordered `raw_results` dict, building `filtered_results`
and `confidence_scores` together.  Python's `len(results) / 10` float
division on these small counts is modelled exactly by `ℚ`. -/
def aggregate_loop :
    List (String × List CodeResult) →
    List (String × List CodeResult) × List (String × ℚ)
  | [] => ([], [])
  | (system, results) :: rest =>
    let (filtered, confidence) := aggregate_loop rest
    if results.isEmpty then (filtered, confidence)
    else ((system, results.take 5) :: filtered,
          (system, min ((results.length : ℚ) / 10) 1) :: confidence)

/-- `aggregate_results_node` (src/agent/nodes.py lines 125-140): the active
count-based aggregation policy.  Reads only `state.raw_results`. -/
def aggregate_results_node (state : AgentState) :
    List (String × List CodeResult) × List (String × ℚ) :=
  aggregate_loop state.raw_results

/-! ## Pipeline graph — src/agent/graph.py -/

/-- The nodes of the compiled state graph, plus the terminal `END`. -/
inductive GraphNode
  | ClassifyIntent
  | SearchPrimary
  | SearchSecondary
  | AggregateResults
  | Summarize
  | Done
deriving DecidableEq

/-- `should_search_secondary` (src/agent/graph.py lines 33-34): branch on
the truthiness of `state["intent"].secondary_systems`. -/
def should_search_secondary (state : AgentState) : GraphNode :=
  if state.intent.secondary_systems.isEmpty then .AggregateResults
  else .SearchSecondary

/-- The edge relation of `create_clinical_codes_graph` (src/agent/graph.py
lines 28-47): every edge is unconditional except the one out of
`search_primary`. -/
def nextNode (state : AgentState) : GraphNode → GraphNode
  | .ClassifyIntent => .SearchPrimary
  | .SearchPrimary => should_search_secondary state
  | .SearchSecondary => .AggregateResults
  | .AggregateResults => .Summarize
  | .Summarize => .Done
  | .Done => .Done

/-- The sequence of graph nodes visited from `node`, following `nextNode`
until `Done` (fuel-bounded; 8 steps more than suffice for this graph). -/
def traceFrom (state : AgentState) : Nat → GraphNode → List GraphNode
  | 0, node => [node]
  | fuel + 1, node =>
    node :: (if node = .Done then []
             else traceFrom state fuel (nextNode state node))

/-- The full run trace, from the entry point `classify_intent`. -/
def pipelineTrace (state : AgentState) : List GraphNode :=
  traceFrom state 8 .ClassifyIntent

/-! ## Caller-facing entry point — src/agent/graph.py `run_agent` -/

/-- The history entry built at src/agent/graph.py lines 75-79. -/
def runAgentEntry (query : String) (intent : SearchIntent)
    (filteredSystems : Nat) : HistoryEntry :=
  { query := query, intent := some intent,
    results_summary := toString filteredSystems ++ " systems with results" }

/-- The conversation-history effect of `run_agent` (src/agent/graph.py lines
52-81).  `history = conversation_history or []` rebinds `history` to a
fresh list when the caller's list is empty (an empty list is falsy), and
`history.append(...)` then mutates whichever list `history` names.  The
first component is the caller-supplied list as the caller observes it after
the run; the second is the history list `run_agent` returns. -/
def runAgentHistory (query : String) (caller : List HistoryEntry)
    (intent : SearchIntent) (filteredSystems : Nat) :
    List HistoryEntry × List HistoryEntry :=
  let entry := runAgentEntry query intent filteredSystems
  if caller.isEmpty then (caller, [entry])
  else (caller ++ [entry], caller ++ [entry])


/-! ## Concrete test vectors shared by the theorems below -/

/-- A sample normalized result. -/
def sampleResult : CodeResult := { code := .jstr "c", display := "d", system := "s" }

/-- A raw-results mapping with 12 ICD-10 results and 3 LOINC results. -/
def exampleRaw : List (String × List CodeResult) :=
  [("icd10cm", List.replicate 12 sampleResult),
   ("loinc", List.replicate 3 sampleResult)]

/-- A well-formed response row with two string fields. -/
def goodRow : JVal := .jlist [.jstr "A", .jstr "B"]

/-- A well-shaped search response carrying one result row at index 3. -/
def goodResponse : JVal := .jlist [.jnull, .jnull, .jnull, .jlist [goodRow]]

/-- A well-shaped search response carrying two result rows at index 3. -/
def twoRowResponse : JVal :=
  .jlist [.jnull, .jnull, .jnull, .jlist [goodRow, goodRow]]

/-- A concrete pipeline state right after intent classification: ICD-10
primary with one secondary system. -/
def demoState : AgentState :=
  { user_query := "diabetes", conversation_history := [],
    intent := { primary_system := .ICD10, secondary_systems := [.LOINC],
                refined_query := "diabetes", concept_type := "diagnosis" },
    api_calls_made := [], raw_results := [], filtered_results := [],
    confidence_scores := [], summary := "" }

/-- Like `demoState` but with the four-entry secondary list of the spec's
dispatch scenario. -/
def demoState4 : AgentState :=
  { demoState with
    intent := { primary_system := .ICD10,
                secondary_systems := [.LOINC, .RXNORM, .HCPCS, .UCUM],
                refined_query := "diabetes", concept_type := "diagnosis" } }

/-- A state carrying the example raw results, ready for aggregation. -/
def demoAggState : AgentState :=
  { demoState with raw_results := exampleRaw }

/-- A state differing from `demoAggState` everywhere except `raw_results`. -/
def demoAggState2 : AgentState :=
  { user_query := "other", conversation_history := [],
    intent := { primary_system := .HPO, secondary_systems := [],
                refined_query := "other", concept_type := "phenotype" },
    api_calls_made := [{ system := "hpo", query := "other", result_count := 9 }],
    raw_results := exampleRaw, filtered_results := exampleRaw,
    confidence_scores := [("hpo", 1)], summary := "something" }

/-! ## Spec-side description of the count-based aggregation policy (§4.4),
kept separate from the source-embedded `aggregate_results_node` so the two
can be compared by a refinement theorem. -/

/-- Spec §4.4: for each vocabulary with non-empty raw results keep the first
5 results verbatim; omit empty vocabularies. -/
def aggregateFilteredSpec (raw : List (String × List CodeResult)) :
    List (String × List CodeResult) :=
  raw.filterMap (fun p => if p.2.isEmpty then none else some (p.1, p.2.take 5))

/-- Spec §4.4: confidence = min(rawResultCount / 10, 1.0) for each vocabulary
with non-empty raw results; omit empty vocabularies. -/
def aggregateConfidenceSpec (raw : List (String × List CodeResult)) :
    List (String × ℚ) :=
  raw.filterMap
    (fun p => if p.2.isEmpty then none
              else some (p.1, min ((p.2.length : ℚ) / 10) 1))

/-! ## Helper lemmas -/

theorem aggregate_loop_eq_spec (raw : List (String × List CodeResult)) :
    aggregate_loop raw = (aggregateFilteredSpec raw, aggregateConfidenceSpec raw) := by
  induction raw with
  | nil => rfl
  | cons p rest ih =>
    obtain ⟨system, results⟩ := p
    simp only [aggregate_loop, ih, aggregateFilteredSpec, aggregateConfidenceSpec,
      List.filterMap_cons]
    by_cases h : results.isEmpty <;> simp [h]

theorem convertSystems_eq_none {l : List String} {s : String}
    (hs : s ∈ l) (h : CodingSystem.ofValue s = none) :
    convertSystems l = none := by
  induction l with
  | nil => cases hs
  | cons x rest ih =>
    rcases List.mem_cons.mp hs with rfl | hmem
    · simp [convertSystems, h]
    · simp only [convertSystems]
      cases hx : CodingSystem.ofValue x
      · rfl
      · rw [ih hmem]; rfl

/-! ## C1 -/

/-- C1 counterexample.  The claim says that whenever the completion service
raises, `classify(query, [])` returns an intent whose primary system is the
diagnosis vocabulary (ICD-10), for every query, and in particular never
raises.  On the code the fallback classifies "glucose" to LOINC, and for
"mg" the drug branch evaluates the nonexistent `CodingSystem.RXTERMS`
attribute and raises. -/
theorem classify_fallback_not_always_icd10 :
    classifyOnServiceFailure "glucose" =
      .ok { primary_system := .LOINC, secondary_systems := [],
            refined_query := "glucose", concept_type := "lab" }
    ∧ CodingSystem.LOINC ≠ CodingSystem.ICD10
    ∧ classifyOnServiceFailure "mg" =
        .error "AttributeError: type object CodingSystem has no attribute RXTERMS" := by
  refine ⟨by decide, by decide, by decide⟩

/-- C1 amended.  When the completion-service call raises, `classify`
returns `_keyword_fallback`: ICD-10/diagnosis for diagnosis-keyword
queries; otherwise LOINC/lab for lab-keyword queries; otherwise, for
drug-keyword queries, it raises `AttributeError` (the fallback references
the nonexistent `CodingSystem.RXTERMS`); otherwise ICD-10 primary with
LOINC secondary.  Whenever it does return an intent, `refined_query` is the
original input verbatim. -/
theorem classify_service_failure_behavior (q : String) :
    (hasDiagnosisKeyword (strLower q) = true →
      classifyOnServiceFailure q =
        .ok { primary_system := .ICD10, secondary_systems := [],
              refined_query := q, concept_type := "diagnosis" })
    ∧ (hasDiagnosisKeyword (strLower q) = false →
       hasLabKeyword (strLower q) = true →
      classifyOnServiceFailure q =
        .ok { primary_system := .LOINC, secondary_systems := [],
              refined_query := q, concept_type := "lab" })
    ∧ (hasDiagnosisKeyword (strLower q) = false →
       hasLabKeyword (strLower q) = false →
       hasDrugKeyword (strLower q) = true →
      classifyOnServiceFailure q =
        .error "AttributeError: type object CodingSystem has no attribute RXTERMS")
    ∧ (hasDiagnosisKeyword (strLower q) = false →
       hasLabKeyword (strLower q) = false →
       hasDrugKeyword (strLower q) = false →
      classifyOnServiceFailure q =
        .ok { primary_system := .ICD10, secondary_systems := [.LOINC],
              refined_query := q, concept_type := "unknown" })
    ∧ (∀ i, classifyOnServiceFailure q = Except.ok i → i.refined_query = q) := by
  simp only [classifyOnServiceFailure, keyword_fallback]
  cases hd : hasDiagnosisKeyword (strLower q) <;>
    cases hl : hasLabKeyword (strLower q) <;>
      cases hdr : hasDrugKeyword (strLower q) <;>
        simp [hd, hl, hdr]

/-- C1 witness: the amended theorem applied at "diabetes" (diagnosis
branch) and "knee pain" (no-keyword branch). -/
theorem classify_service_failure_behavior_witness :
    classifyOnServiceFailure "diabetes" =
      .ok { primary_system := .ICD10, secondary_systems := [],
            refined_query := "diabetes", concept_type := "diagnosis" }
    ∧ classifyOnServiceFailure "knee pain" =
      .ok { primary_system := .ICD10, secondary_systems := [.LOINC],
            refined_query := "knee pain", concept_type := "unknown" } :=
  ⟨(classify_service_failure_behavior "diabetes").1 (by decide),
   (classify_service_failure_behavior "knee pain").2.2.2.1
     (by decide) (by decide) (by decide)⟩

/-! ## C2 -/

/-- C2.  The active count-based aggregator keeps, per vocabulary with
non-empty raw results, exactly the first 5 results verbatim with confidence
`min(count / 10, 1)`, and omits empty vocabularies from both output maps;
on raw results of lengths {ICD: 12, LOINC: 3} the confidences are
{ICD: 1, LOINC: 3/10} and the filtered ICD list has 5 entries. -/
theorem aggregate_count_policy :
    (∀ state : AgentState,
      aggregate_results_node state =
        (aggregateFilteredSpec state.raw_results,
         aggregateConfidenceSpec state.raw_results))
    ∧ (aggregate_loop exampleRaw).2 = [("icd10cm", 1), ("loinc", 3 / 10)]
    ∧ (assocGet (aggregate_loop exampleRaw).1 "icd10cm").map List.length =
        some 5 := by
  refine ⟨fun state => aggregate_loop_eq_spec state.raw_results, ?_, ?_⟩ <;>
    simp [exampleRaw, aggregate_loop, sampleResult, assocGet] <;> norm_num [min_def]

/-! ## C6 -/

/-- C6.  Any vocabulary name in the parsed JSON that is not one of the six
recognized values (whether as primary or inside the secondary list) makes
the whole classification fall back to the deterministic keyword fallback,
instead of silently dropping the unrecognized value. -/
theorem unrecognized_vocabulary_falls_back (q : String) (data : IntentData)
    (h : CodingSystem.ofValue data.primary_system = none ∨
         ∃ s ∈ data.secondary_systems, CodingSystem.ofValue s = none) :
    classifyFromData q data = keyword_fallback q := by
  rcases h with h | ⟨s, hs, hbad⟩
  · simp [classifyFromData, h]
  · have hnone := convertSystems_eq_none hs hbad
    simp only [classifyFromData, hnone]
    cases CodingSystem.ofValue data.primary_system <;> rfl

/-- C6 witness: a parsed JSON object whose primary is the unrecognized
value "icd9" falls back (for a query that takes the diagnosis branch of
the fallback). -/
theorem unrecognized_vocabulary_falls_back_witness :
    classifyFromData "diabetes"
      { primary_system := "icd9", secondary_systems := ["loinc"],
        refined_query := none, concept_type := none } =
      keyword_fallback "diabetes" :=
  unrecognized_vocabulary_falls_back "diabetes" _ (Or.inl (by decide))

/-! ## C9 -/

/-- C9 counterexample.  With an empty caller-supplied history list,
`history = conversation_history or []` rebinds to a fresh list (an empty
list is falsy), so the append mutates the fresh list and the caller's list
gains no entry — the claim's "appends exactly one entry to the
caller-supplied list in place" fails. -/
theorem run_agent_empty_history_counterexample :
    (runAgentHistory "diabetes" []
        { primary_system := .ICD10, secondary_systems := [],
          refined_query := "diabetes", concept_type := "unknown" } 0).1 = []
    ∧ ([] : List HistoryEntry) ≠
        [runAgentEntry "diabetes"
          { primary_system := .ICD10, secondary_systems := [],
            refined_query := "diabetes", concept_type := "unknown" } 0] :=
  ⟨rfl, by simp⟩

/-- C9 amended.  When the caller-supplied history list is non-empty,
`run_agent` appends exactly one entry to it in place — the entry holds the
query, the resolved intent object, and the summary string
"<n> systems with results" — leaving all pre-existing entries unchanged,
and returns that same list; when the caller's list is empty, the caller's
list is left untouched and the entry goes to a fresh one-element list that
`run_agent` returns. -/
theorem run_agent_history_effect (query : String) (caller : List HistoryEntry)
    (intent : SearchIntent) (filteredSystems : Nat) :
    (caller ≠ [] →
      runAgentHistory query caller intent filteredSystems =
        (caller ++ [runAgentEntry query intent filteredSystems],
         caller ++ [runAgentEntry query intent filteredSystems]))
    ∧ (caller = [] →
      runAgentHistory query caller intent filteredSystems =
        (caller, [runAgentEntry query intent filteredSystems]))
    ∧ (runAgentEntry query intent filteredSystems).query = query
    ∧ (runAgentEntry query intent filteredSystems).intent = some intent
    ∧ (runAgentEntry query intent filteredSystems).results_summary =
        toString filteredSystems ++ " systems with results" := by
  refine ⟨?_, ?_, rfl, rfl, rfl⟩ <;> intro h <;>
    simp [runAgentHistory, h, List.isEmpty_iff]

/-- C9 witness: the amended theorem at a one-entry caller list and at the
empty list. -/
theorem run_agent_history_effect_witness :
    runAgentHistory "q2"
        [runAgentEntry "q1"
          { primary_system := .ICD10, secondary_systems := [],
            refined_query := "q1", concept_type := "unknown" } 0]
        { primary_system := .LOINC, secondary_systems := [],
          refined_query := "q2", concept_type := "lab" } 2 =
      ([runAgentEntry "q1"
          { primary_system := .ICD10, secondary_systems := [],
            refined_query := "q1", concept_type := "unknown" } 0,
        runAgentEntry "q2"
          { primary_system := .LOINC, secondary_systems := [],
            refined_query := "q2", concept_type := "lab" } 2],
       [runAgentEntry "q1"
          { primary_system := .ICD10, secondary_systems := [],
            refined_query := "q1", concept_type := "unknown" } 0,
        runAgentEntry "q2"
          { primary_system := .LOINC, secondary_systems := [],
            refined_query := "q2", concept_type := "lab" } 2]) :=
  (run_agent_history_effect "q2" _ _ 2).1 (by simp)

/-! ## Helper lemmas for the adapter and dispatch theorems -/

theorem ClinicalTablesAPI.parseRows_length_le (endpoint : String)
    (config : ClinicalTablesAPI.ApiConfig) :
    ∀ (rows : List JVal) (results : List CodeResult),
      ClinicalTablesAPI.parseRows endpoint config rows = .ok results →
      results.length ≤ rows.length := by
  intro rows
  induction rows with
  | nil =>
    intro results h
    simp only [ClinicalTablesAPI.parseRows] at h
    cases h
    simp
  | cons row rest ih =>
    intro results h
    simp only [ClinicalTablesAPI.parseRows] at h
    cases hrow : ClinicalTablesAPI.parseRow endpoint config row with
    | error e => rw [hrow] at h; cases h
    | ok o =>
      rw [hrow] at h
      cases o with
      | none =>
        exact Nat.le_succ_of_le (ih results h)
      | some r =>
        cases hrest : ClinicalTablesAPI.parseRows endpoint config rest with
        | error e => rw [hrest] at h; cases h
        | ok rs =>
          rw [hrest] at h
          cases h
          simpa using Nat.succ_le_succ (ih rs hrest)

theorem assocGet_assocSet_self {α : Type} (l : List (String × α))
    (k : String) (v : α) : assocGet (assocSet l k v) k = some v := by
  induction l with
  | nil => simp [assocSet, assocGet]
  | cons p rest ih =>
    obtain ⟨k2, v2⟩ := p
    by_cases h : k2 = k <;> simp [assocSet, assocGet, h, ih]

theorem mem_assocKeys_assocSet {α : Type} (l : List (String × α))
    (k key : String) (v : α) :
    k ∈ assocKeys (assocSet l key v) ↔ k ∈ assocKeys l ∨ k = key := by
  induction l with
  | nil => simp [assocSet, assocKeys]
  | cons p rest ih =>
    obtain ⟨k2, v2⟩ := p
    by_cases h : k2 = key
    · subst h
      have e : assocSet ((k2, v2) :: rest) k2 v = (k2, v) :: rest := by
        simp [assocSet]
      rw [e]
      show k ∈ k2 :: assocKeys rest ↔ k ∈ k2 :: assocKeys rest ∨ k = k2
      simp only [List.mem_cons]
      tauto
    · have e : assocSet ((k2, v2) :: rest) key v =
          (k2, v2) :: assocSet rest key v := by
        simp [assocSet, h]
      rw [e]
      show k ∈ k2 :: assocKeys (assocSet rest key v) ↔
        k ∈ k2 :: assocKeys rest ∨ k = key
      simp only [List.mem_cons, ih]
      tauto

theorem CodingSystem.value_injective (a b : CodingSystem)
    (h : a.value = b.value) : a = b := by
  cases a <;> cases b <;> first | rfl | exact absurd h (by decide)

theorem secondary_loop_calls (fetch : String → String → Nat → List CodeResult)
    (q : String) :
    ∀ (l : List CodingSystem) (calls : List ApiCallRecord)
      (raw : List (String × List CodeResult)),
      (secondary_loop fetch q l (calls, raw)).1 =
        calls ++ l.map (fun s =>
          { system := s.value, query := q,
            result_count := (search_system fetch s q 5).length }) := by
  intro l
  induction l with
  | nil => intro calls raw; simp [secondary_loop]
  | cons s rest ih =>
    intro calls raw
    simp only [secondary_loop, List.map_cons]
    rw [ih]
    simp

theorem secondary_loop_raw_mem (fetch : String → String → Nat → List CodeResult)
    (q : String) :
    ∀ (l : List CodingSystem) (calls : List ApiCallRecord)
      (raw : List (String × List CodeResult)) (k : String),
      k ∈ assocKeys (secondary_loop fetch q l (calls, raw)).2 →
      k ∈ assocKeys raw ∨
        ∃ t ∈ l, search_system fetch t q 5 ≠ [] ∧ t.value = k := by
  intro l
  induction l with
  | nil => intro calls raw k h; exact Or.inl h
  | cons s rest ih =>
    intro calls raw k h
    simp only [secondary_loop] at h
    by_cases hempty : (search_system fetch s q 5).isEmpty
    · rw [if_pos hempty] at h
      rcases ih _ _ _ h with hk | ⟨t, ht, hne, hv⟩
      · exact Or.inl hk
      · exact Or.inr ⟨t, List.mem_cons_of_mem s ht, hne, hv⟩
    · rw [if_neg hempty] at h
      rcases ih _ _ _ h with hk | ⟨t, ht, hne, hv⟩
      · rcases (mem_assocKeys_assocSet raw k s.value _).mp hk with hk2 | rfl
        · exact Or.inl hk2
        · refine Or.inr ⟨s, List.mem_cons_self s rest, ?_, rfl⟩
          simpa [List.isEmpty_iff] using hempty
      · exact Or.inr ⟨t, List.mem_cons_of_mem s ht, hne, hv⟩

theorem secondary_loop_ext (fetch fetch2 : String → String → Nat → List CodeResult)
    (q : String) :
    ∀ (l : List CodingSystem)
      (acc : List ApiCallRecord × List (String × List CodeResult)),
      (∀ s ∈ l, search_system fetch s q 5 = search_system fetch2 s q 5) →
      secondary_loop fetch q l acc = secondary_loop fetch2 q l acc := by
  intro l
  induction l with
  | nil => intro acc h; rfl
  | cons s rest ih =>
    intro acc h
    obtain ⟨calls, raw⟩ := acc
    simp only [secondary_loop, h s (List.mem_cons_self s rest)]
    exact ih _ (fun t ht => h t (List.mem_cons_of_mem s ht))

/-! ## C3 -/

/-- C3 counterexample.  The claim says `search` returns at most `limit`
results for every vocabulary, query and limit.  The adapter only forwards
`limit` as the `maxList` request parameter and never truncates the parsed
response locally, so a response carrying two well-formed rows yields two
results even with `limit = 1`. -/
theorem search_exceeds_limit_counterexample :
    (ClinicalTablesAPI.search "icd10cm" "x" 1 (.ok twoRowResponse)).length = 2
    ∧ ¬ (ClinicalTablesAPI.search "icd10cm" "x" 1 (.ok twoRowResponse)).length ≤ 1 := by
  refine ⟨by decide, by decide⟩

/-- C3 amended.  `search` never raises (it is a total function of the
response outcome): on a non-2xx status or any other transport/parse error it
returns the empty sequence, and so does it when the response envelope lacks
the expected shape; it returns at most one normalized result per row of the
response's result list — hence at most `limit` results whenever the remote
service honors the `maxList = limit` request parameter that `search` sends
(`buildParams`), but with no local cap beyond that. -/
theorem search_error_empty_and_row_bound (endpoint query : String) (limit : Nat) :
    (ClinicalTablesAPI.search endpoint query limit .httpError = []
      ∧ ClinicalTablesAPI.search endpoint query limit .malformed = [])
    ∧ (∀ data : JVal,
        ClinicalTablesAPI.getRows data
            (ClinicalTablesAPI.effectiveConfig endpoint).result_index = none →
        ClinicalTablesAPI.search endpoint query limit (.ok data) = [])
    ∧ (∀ (data : JVal) (rows : List JVal),
        ClinicalTablesAPI.getRows data
            (ClinicalTablesAPI.effectiveConfig endpoint).result_index = some rows →
        (ClinicalTablesAPI.search endpoint query limit (.ok data)).length ≤
          rows.length)
    ∧ (ClinicalTablesAPI.buildParams endpoint query limit).maxList = limit := by
  refine ⟨⟨rfl, rfl⟩, ?_, ?_, rfl⟩
  · intro data h
    simp [ClinicalTablesAPI.search, h]
  · intro data rows h
    simp only [ClinicalTablesAPI.search, h]
    cases hp : ClinicalTablesAPI.parseRows endpoint
        (ClinicalTablesAPI.effectiveConfig endpoint) rows with
    | error e => simp
    | ok results =>
      simpa using ClinicalTablesAPI.parseRows_length_le endpoint _ rows results hp

/-- C3 witness: the amended theorem at the two-row response, whose result
list is bounded by the row count 2. -/
theorem search_error_empty_and_row_bound_witness :
    (ClinicalTablesAPI.search "icd10cm" "x" 1 (.ok twoRowResponse)).length ≤ 2 :=
  (search_error_empty_and_row_bound "icd10cm" "x" 1).2.2.1 twoRowResponse
    [goodRow, goodRow] rfl

/-! ## C4 -/

/-- C4.  Primary dispatch with zero results still appends a count-0 audit
record and still writes the (empty) result list under the primary
vocabulary's key; secondary dispatch with zero results appends a count-0
audit record but adds no raw-results key. -/
theorem dispatch_zero_result_recording
    (fetch : String → String → Nat → List CodeResult) (state : AgentState) :
    (search_system fetch state.intent.primary_system
        state.intent.refined_query 10 = [] →
      (search_primary_node fetch state).1 =
        state.api_calls_made ++
          [{ system := state.intent.primary_system.value,
             query := state.intent.refined_query, result_count := 0 }]
      ∧ assocGet (search_primary_node fetch state).2
          state.intent.primary_system.value = some [])
    ∧ (∀ s ∈ state.intent.secondary_systems.take 3,
        search_system fetch s state.intent.refined_query 5 = [] →
        ({ system := s.value, query := state.intent.refined_query,
           result_count := 0 } : ApiCallRecord) ∈
            (search_secondary_node fetch state).1
        ∧ (s.value ∉ assocKeys state.raw_results →
            s.value ∉ assocKeys (search_secondary_node fetch state).2)) := by
  constructor
  · intro h
    constructor
    · simp [search_primary_node, h]
    · simp only [search_primary_node, h]
      exact assocGet_assocSet_self state.raw_results _ []
  · intro s hs h
    constructor
    · rw [search_secondary_node, secondary_loop_calls]
      refine List.mem_append_right _ ?_
      refine List.mem_map.mpr ⟨s, hs, ?_⟩
      rw [h]
      rfl
    · intro hnotin hmem
      rcases secondary_loop_raw_mem fetch state.intent.refined_query
          _ _ _ _ hmem with hk | ⟨t, ht, hne, hv⟩
      · exact hnotin hk
      · have : t = s := CodingSystem.value_injective t s hv
        subst this
        exact hne h

/-- C4 witness: with a remote that returns nothing, primary dispatch on
`demoState` records count 0 and an empty raw-results entry for "icd10cm",
while secondary dispatch records count 0 for "loinc" without adding a key. -/
theorem dispatch_zero_result_recording_witness :
    ((search_primary_node (fun _ _ _ => []) demoState).1 =
        [{ system := "icd10cm", query := "diabetes", result_count := 0 }]
      ∧ assocGet (search_primary_node (fun _ _ _ => []) demoState).2 "icd10cm" =
          some [])
    ∧ (({ system := "loinc", query := "diabetes", result_count := 0 } :
          ApiCallRecord) ∈ (search_secondary_node (fun _ _ _ => []) demoState).1
        ∧ "loinc" ∉ assocKeys (search_secondary_node (fun _ _ _ => []) demoState).2) :=
  ⟨(dispatch_zero_result_recording (fun _ _ _ => []) demoState).1 rfl,
   ⟨((dispatch_zero_result_recording (fun _ _ _ => []) demoState).2
       .LOINC (by decide) rfl).1,
    ((dispatch_zero_result_recording (fun _ _ _ => []) demoState).2
       .LOINC (by decide) rfl).2 (by decide)⟩⟩

/-! ## C5 -/

/-- C5.  Secondary dispatch appends exactly one audit record per vocabulary
in the first 3 entries of the secondary list, each produced by a limit-5
adapter call; its entire output depends only on the adapter's answers for
those first 3 vocabularies (so a 4th entry such as UCUM is never queried);
and on `secondary_systems = [LOINC, RXNORM, HCPCS, UCUM]` the appended
audit records name exactly loinc, rxnorm, hcpcs in order. -/
theorem secondary_dispatch_first_three
    (fetch fetch2 : String → String → Nat → List CodeResult)
    (state : AgentState) :
    ((search_secondary_node fetch state).1 =
      state.api_calls_made ++
        (state.intent.secondary_systems.take 3).map (fun s =>
          { system := s.value, query := state.intent.refined_query,
            result_count :=
              (search_system fetch s state.intent.refined_query 5).length }))
    ∧ ((∀ s ∈ state.intent.secondary_systems.take 3,
          search_system fetch s state.intent.refined_query 5 =
            search_system fetch2 s state.intent.refined_query 5) →
        search_secondary_node fetch state = search_secondary_node fetch2 state)
    ∧ (state.intent.secondary_systems = [.LOINC, .RXNORM, .HCPCS, .UCUM] →
        ((search_secondary_node fetch state).1.drop
            state.api_calls_made.length).map (fun r => r.system) =
          ["loinc", "rxnorm", "hcpcs"]) := by
  refine ⟨?_, ?_, ?_⟩
  · rw [search_secondary_node, secondary_loop_calls]
  · intro h
    exact secondary_loop_ext fetch fetch2 _ _ _ h
  · intro h
    rw [search_secondary_node, secondary_loop_calls, List.drop_left, h]
    rfl

/-- C5 witness: on the four-entry secondary list, a remote answering
nothing and a remote that differs only on the "ucum" endpoint produce
identical node output, and the appended audit records name exactly
loinc, rxnorm, hcpcs. -/
theorem secondary_dispatch_first_three_witness :
    search_secondary_node (fun _ _ _ => []) demoState4 =
      search_secondary_node
        (fun e _ _ => if e = "ucum" then [sampleResult] else []) demoState4
    ∧ ((search_secondary_node (fun _ _ _ => []) demoState4).1.drop
          demoState4.api_calls_made.length).map (fun r => r.system) =
        ["loinc", "rxnorm", "hcpcs"] :=
  ⟨(secondary_dispatch_first_three (fun _ _ _ => [])
      (fun e _ _ => if e = "ucum" then [sampleResult] else []) demoState4).2.1
      (by decide),
   (secondary_dispatch_first_three (fun _ _ _ => [])
      (fun _ _ _ => []) demoState4).2.2 rfl⟩

/-! ## C7 -/

/-- C7.  The active aggregator is a pure function of its raw-results input:
states agreeing on `raw_results` aggregate identically, and re-running the
aggregator on the state updated with its own outputs yields the same
filtered results and confidence scores. -/
theorem aggregate_idempotent :
    (∀ s1 s2 : AgentState, s1.raw_results = s2.raw_results →
      aggregate_results_node s1 = aggregate_results_node s2)
    ∧ (∀ state : AgentState,
      aggregate_results_node
        { state with
          filtered_results := (aggregate_results_node state).1,
          confidence_scores := (aggregate_results_node state).2 } =
        aggregate_results_node state) := by
  constructor
  · intro s1 s2 h
    simp [aggregate_results_node, h]
  · intro state
    rfl

/-- C7 witness: two states differing everywhere except `raw_results`
aggregate identically, and a second aggregation pass on `demoAggState`
reproduces the first. -/
theorem aggregate_idempotent_witness :
    aggregate_results_node demoAggState = aggregate_results_node demoAggState2
    ∧ aggregate_results_node
        { demoAggState with
          filtered_results := (aggregate_results_node demoAggState).1,
          confidence_scores := (aggregate_results_node demoAggState).2 } =
      aggregate_results_node demoAggState :=
  ⟨aggregate_idempotent.1 demoAggState demoAggState2 rfl,
   aggregate_idempotent.2 demoAggState⟩

/-! ## C8 -/

/-- C8.  `SearchSecondary` occurs in the pipeline's run trace iff the
resolved intent's secondary list is non-empty; with an empty list the edge
out of `SearchPrimary` goes straight to `AggregateResults`; every other
transition is state-independent, and `Done` is terminal. -/
theorem pipeline_branch_guard (state : AgentState) :
    (nextNode state .ClassifyIntent = .SearchPrimary)
    ∧ (state.intent.secondary_systems ≠ [] →
        nextNode state .SearchPrimary = .SearchSecondary
        ∧ pipelineTrace state =
            [.ClassifyIntent, .SearchPrimary, .SearchSecondary,
             .AggregateResults, .Summarize, .Done])
    ∧ (state.intent.secondary_systems = [] →
        nextNode state .SearchPrimary = .AggregateResults
        ∧ pipelineTrace state =
            [.ClassifyIntent, .SearchPrimary, .AggregateResults,
             .Summarize, .Done])
    ∧ (GraphNode.SearchSecondary ∈ pipelineTrace state ↔
        state.intent.secondary_systems ≠ [])
    ∧ (nextNode state .SearchSecondary = .AggregateResults)
    ∧ (nextNode state .AggregateResults = .Summarize)
    ∧ (nextNode state .Summarize = .Done)
    ∧ (nextNode state .Done = .Done)
    ∧ (∀ (state2 : AgentState) (n : GraphNode), n ≠ .SearchPrimary →
        nextNode state n = nextNode state2 n) := by
  by_cases h : state.intent.secondary_systems = []
  · refine ⟨rfl, ?_, ?_, ?_, rfl, rfl, rfl, rfl, ?_⟩
    · intro hne; exact absurd h hne
    · intro _
      constructor
      · simp [nextNode, should_search_secondary, h]
      · simp [pipelineTrace, traceFrom, nextNode, should_search_secondary, h]
    · constructor
      · intro hmem
        simp [pipelineTrace, traceFrom, nextNode, should_search_secondary, h] at hmem
      · intro hne; exact absurd h hne
    · intro state2 n hn; cases n <;> simp_all [nextNode]
  · refine ⟨rfl, ?_, ?_, ?_, rfl, rfl, rfl, rfl, ?_⟩
    · intro _
      constructor
      · simp [nextNode, should_search_secondary, List.isEmpty_iff, h]
      · simp [pipelineTrace, traceFrom, nextNode, should_search_secondary,
          List.isEmpty_iff, h]
    · intro he; exact absurd he h
    · constructor
      · intro _; exact h
      · intro _
        simp [pipelineTrace, traceFrom, nextNode, should_search_secondary,
          List.isEmpty_iff, h]
    · intro state2 n hn; cases n <;> simp_all [nextNode]

/-- C8 witness: on `demoState` (one secondary system) the trace includes
`SearchSecondary`; the branch hypothesis is discharged concretely. -/
theorem pipeline_branch_guard_witness :
    pipelineTrace demoState =
      [.ClassifyIntent, .SearchPrimary, .SearchSecondary, .AggregateResults,
       .Summarize, .Done] :=
  ((pipeline_branch_guard demoState).2.1 (by decide)).2

/-! ## C10 -/

/-- C10.  For an endpoint outside the six configured vocabularies the
adapter does not fail and does not default to empty: the configuration
lookup silently falls back to the ICD-10 entry, the outgoing request is
built from the ICD-10 search/display fields, and a well-shaped response is
parsed with the ICD-10 positional layout into non-empty results. -/
theorem unknown_endpoint_uses_icd10_config (endpoint query : String)
    (limit : Nat)
    (h : endpoint ∉ ["icd10cm", "loinc_items", "rxterms", "hcpcs", "ucum", "hpo"]) :
    assocGet ClinicalTablesAPI.API_CONFIG endpoint = none
    ∧ ClinicalTablesAPI.effectiveConfig endpoint =
        ClinicalTablesAPI.effectiveConfig "icd10cm"
    ∧ ClinicalTablesAPI.buildParams endpoint query limit =
        { sf := "code,name", df := "code,name", maxList := limit, terms := query }
    ∧ ClinicalTablesAPI.search endpoint query limit (.ok goodResponse) =
        [{ code := .jstr "A", display := "B", system := endpoint }] := by
  simp only [List.mem_cons, List.not_mem_nil, or_false, not_or] at h
  obtain ⟨h1, h2, h3, h4, h5, h6⟩ := h
  have hget : assocGet ClinicalTablesAPI.API_CONFIG endpoint = none := by
    simp [ClinicalTablesAPI.API_CONFIG, assocGet, Ne.symm h1, Ne.symm h2,
      Ne.symm h3, Ne.symm h4, Ne.symm h5, Ne.symm h6]
  have hcfg : ClinicalTablesAPI.effectiveConfig endpoint =
      { search_fields := "code,name", display_fields := "code,name",
        result_index := 3, code_field := 0, display_field := 1 } := by
    simp [ClinicalTablesAPI.effectiveConfig, hget]
  refine ⟨hget, ?_, ?_, ?_⟩
  · rw [hcfg]; rfl
  · rw [ClinicalTablesAPI.buildParams, hcfg]
  · simp only [ClinicalTablesAPI.search, hcfg]
    rfl

/-- C10 witness: a concrete unknown endpoint "madeupvocab" gets the ICD-10
configuration and parses the good response into one result. -/
theorem unknown_endpoint_uses_icd10_config_witness :
    ClinicalTablesAPI.search "madeupvocab" "x" 7 (.ok goodResponse) =
      [{ code := .jstr "A", display := "B", system := "madeupvocab" }] :=
  (unknown_endpoint_uses_icd10_config "madeupvocab" "x" 7 (by decide)).2.2.2
